import Mathlib

/-!
Shallow embedding of the AFSIM script-assembly repository: the
`ScriptBuilder` fragment store and `finalize_script` tool from
src/server.py, and the per-turn orchestration entry point
`MCPClient.chat` from src/newclient.py.py, together with theorems
settling the behavioural claims about them.
-/

/-- ASCII whitespace characters removed by Python `str.rstrip()` with its
default argument (space, tab, newline, carriage return, vertical tab,
form feed); the claims only exercise ASCII text. -/
def pySpace (c : Char) : Bool :=
  c == ' ' || c == '\t' || c == '\n' || c == '\r' ||
    c == Char.ofNat 11 || c == Char.ofNat 12

/-- Python `snippet.rstrip()`: remove trailing whitespace. -/
def pyRstrip (s : String) : String :=
  String.mk ((s.data.reverse.dropWhile pySpace).reverse)

/-- Python `name or snippet` for an optional string `name`: `None` and the
empty string are both falsy, so either falls back to `snippet`. -/
def pyOr (name : Option String) (snippet : String) : String :=
  match name with
  | none => snippet
  | some n => if n = "" then snippet else n

namespace ScriptBuilder

/-- src/server.py lines 7-10: the fixed category enumeration; its order is
the render order. -/
def ORDER : List String :=
  [ "physical", "aero", "antenna", "sensor", "processor",
    "platform_type", "weapon_effects", "weapon", "platform"]

/-- The state of a `ScriptBuilder` instance: `sections` is the dict mapping
each category of `ORDER` to its fragment list (categories outside `ORDER`
are never populated, matching the dict built by `reset`), and `registered`
is the dedup identity set, represented as a duplicate-free list used only
through membership. -/
structure State where
  sections : String → List String
  registered : List (String × String)

/-- src/server.py lines 14-16 `reset()`: fresh empty sections dict over
`ORDER` and an empty dedup set. -/
def reset (_st : State) : State :=
  { sections := fun _ => [], registered := [] }

/-- The state built by `__init__`, which just calls `reset`. -/
def init : State :=
  { sections := fun _ => [], registered := [] }

/-- src/server.py lines 18-24 `add(kind, snippet, name=None)`. The dedup
key is `(kind, name or snippet)` with the raw snippet; if it is already
registered the call returns at once. Otherwise Python first executes
`self.registered.add(key)` and only then evaluates `self.sections[kind]`,
which raises `KeyError` when `kind` is not a key of the dict (i.e. not in
`ORDER`); the stored fragment is `snippet.rstrip() + "\n"`. The returned
`Bool` is `false` exactly when the call raises `KeyError`, and the
returned `State` is the object state after the call either way. -/
def add (st : State) (kind snippet : String) (name : Option String) :
    Bool × State :=
  if (kind, pyOr name snippet) ∈ st.registered then
    (true, st)
  else if kind ∈ ORDER then
    (true,
      { sections := fun k =>
          if k = kind then st.sections k ++ [pyRstrip snippet ++ "\n"]
          else st.sections k,
        registered := (kind, pyOr name snippet) :: st.registered })
  else
    (false, { st with registered := (kind, pyOr name snippet) :: st.registered })

/-- src/server.py lines 26-27 `render()`: join every stored line of every
category, in `ORDER` order, with a newline between consecutive lines. -/
def render (st : State) : String :=
  String.intercalate "\n" (List.flatten (ORDER.map st.sections))

end ScriptBuilder

/-- One recorded `add` call: category, snippet and optional dedup name. -/
structure AddOp where
  kind : String
  snippet : String
  name : Option String

/-- Run a sequence of `add` calls against a builder state, threading the
object state through each call. -/
def runAdds (st : ScriptBuilder.State) (ops : List AddOp) : ScriptBuilder.State :=
  ops.foldl (fun s o => (ScriptBuilder.add s o.kind o.snippet o.name).2) st

/-- src/server.py lines 152-160 `finalize_script(save=True, reset=False)`.
The script is rendered first; when `save` is requested the code evaluates
`Path(...)` — the literal Ellipsis placeholder, there is no path
parameter — which raises `TypeError` before anything is written, modelled
as `Except.error ()`. Without `save`, the builder is cleared when `reset`
is set and the rendered script is returned. -/
def finalize_script (st : ScriptBuilder.State) (save reset : Bool) :
    Except Unit (String × ScriptBuilder.State) :=
  let script := ScriptBuilder.render st
  if save then Except.error ()
  else Except.ok (script, if reset then ScriptBuilder.reset st else st)

/-- One tool call inside a model response: `id`, `function.name` and the
`function.arguments` payload, kept opaque (the spec treats arguments as
already structured data handed through to the gateway). -/
structure ToolCall where
  id : String
  fname : String
  arguments : String
deriving DecidableEq, Repr

/-- One entry of `self.messages`: role, content, optional `tool_call_id`
(present on tool messages) and the raw `tool_calls` metadata (present on
assistant messages that requested calls, preserved by `model_dump()`). -/
structure ChatMessage where
  role : String
  content : String
  tool_call_id : Option String
  tool_calls : List ToolCall
deriving DecidableEq, Repr

/-- The part of a chat-completion choice read by `chat`: `finish_reason`
and the assistant message. -/
structure ModelResponse where
  finish_reason : String
  message : ChatMessage
deriving DecidableEq, Repr

/-- The gateway result read by `chat` as `result.content[0].text`. Per the
spec (§4.3, §7) the gateway returns exactly one textual result; a failing
operation yields a result carrying the error text (flagged `isError`)
rather than raising into the client. -/
structure CallToolResult where
  isError : Bool
  text : String
deriving DecidableEq, Repr

namespace MCPClient

/-- src/newclient.py.py lines 995-1037 `chat(prompt, role="user")`, with
its two model interactions and the tool gateway made explicit inputs:
`resp1` is the first completion, `callTool` the gateway
(`session.call_tool`), and `followupContent` the content of the second
completion on the tool path. The prompt message is always appended; on
the tool path the assistant message (with its raw tool-call metadata) and
the tool-result message are appended and the follow-up content is
returned without being appended; on the no-tool path the reply content is
returned without being appended. The result carries the final message
list, the returned text, and the trace of gateway invocations performed
(name and arguments). `Except.error` models the `IndexError` of
`tool_calls[0]` when `finish_reason` claims tool calls but none exist. -/
def chat (messages : List ChatMessage) (prompt : String) (role : String)
    (resp1 : ModelResponse)
    (callTool : String → String → CallToolResult)
    (followupContent : String) :
    Except Unit (List ChatMessage × String × List (String × String)) :=
  let messages1 := messages ++
    [{ role := role, content := prompt, tool_call_id := none, tool_calls := [] }]
  if resp1.finish_reason = "tool_calls" then
    match resp1.message.tool_calls with
    | [] => Except.error ()
    | tc :: _ =>
        let result := callTool tc.fname tc.arguments
        Except.ok
          (messages1 ++
            [resp1.message,
             { role := "tool", content := result.text,
               tool_call_id := some tc.id, tool_calls := [] }],
           followupContent, [ (tc.fname, tc.arguments)])
  else
    Except.ok (messages1, resp1.message.content, [])

end MCPClient

/-! Equation lemmas for `ScriptBuilder.add` and `runAdds`. -/

theorem add_of_mem (st : ScriptBuilder.State) (kind snippet : String)
    (name : Option String) (h : (kind, pyOr name snippet) ∈ st.registered) :
    ScriptBuilder.add st kind snippet name = (true, st) := by
  unfold ScriptBuilder.add
  rw [if_pos h]

theorem add_of_new_valid (st : ScriptBuilder.State) (kind snippet : String)
    (name : Option String) (h : (kind, pyOr name snippet) ∉ st.registered)
    (ho : kind ∈ ScriptBuilder.ORDER) :
    ScriptBuilder.add st kind snippet name =
      (true,
        { sections := fun k =>
            if k = kind then st.sections k ++ [pyRstrip snippet ++ "\n"]
            else st.sections k,
          registered := (kind, pyOr name snippet) :: st.registered }) := by
  unfold ScriptBuilder.add
  rw [if_neg h, if_pos ho]

theorem add_of_new_invalid (st : ScriptBuilder.State) (kind snippet : String)
    (name : Option String) (h : (kind, pyOr name snippet) ∉ st.registered)
    (ho : kind ∉ ScriptBuilder.ORDER) :
    ScriptBuilder.add st kind snippet name =
      (false, { st with registered := (kind, pyOr name snippet) :: st.registered }) := by
  unfold ScriptBuilder.add
  rw [if_neg h, if_neg ho]

theorem runAdds_nil (st : ScriptBuilder.State) : runAdds st [] = st := rfl

theorem runAdds_cons (st : ScriptBuilder.State) (o : AddOp) (ops : List AddOp) :
    runAdds st (o :: ops) =
      runAdds (ScriptBuilder.add st o.kind o.snippet o.name).2 ops := rfl

theorem runAdds_append (st : ScriptBuilder.State) (ops more : List AddOp) :
    runAdds st (ops ++ more) = runAdds (runAdds st ops) more := by
  unfold runAdds
  exact List.foldl_append _ _ _ _

/-- The key registered by a completed or failed fresh `add` is present in
the post state, whichever branch was taken. -/
theorem add_key_registered (st : ScriptBuilder.State) (kind snippet : String)
    (name : Option String) :
    (kind, pyOr name snippet) ∈ (ScriptBuilder.add st kind snippet name).2.registered := by
  unfold ScriptBuilder.add
  by_cases h : (kind, pyOr name snippet) ∈ st.registered
  · rw [if_pos h]
    exact h
  · rw [if_neg h]
    by_cases ho : kind ∈ ScriptBuilder.ORDER
    · rw [if_pos ho]
      exact List.mem_cons_self _ _
    · rw [if_neg ho]
      exact List.mem_cons_self _ _

/-- `add` leaves every category other than its own untouched. -/
theorem add_sections_other (st : ScriptBuilder.State) (kind snippet : String)
    (name : Option String) (k : String) (hk : k ≠ kind) :
    (ScriptBuilder.add st kind snippet name).2.sections k = st.sections k := by
  unfold ScriptBuilder.add
  by_cases h : (kind, pyOr name snippet) ∈ st.registered
  · rw [if_pos h]
  · rw [if_neg h]
    by_cases ho : kind ∈ ScriptBuilder.ORDER
    · rw [if_pos ho]
      simp [hk]
    · rw [if_neg ho]

/-- `add` can only register a key whose first component is its own
category: membership of keys of any other category is unchanged. -/
theorem add_registered_other (st : ScriptBuilder.State) (kind snippet : String)
    (name : Option String) (k x : String) (hk : k ≠ kind) :
    ((k, x) ∈ (ScriptBuilder.add st kind snippet name).2.registered ↔
      (k, x) ∈ st.registered) := by
  unfold ScriptBuilder.add
  by_cases h : (kind, pyOr name snippet) ∈ st.registered
  · rw [if_pos h]
  · rw [if_neg h]
    by_cases ho : kind ∈ ScriptBuilder.ORDER
    · rw [if_pos ho]
      simp [List.mem_cons, Prod.ext_iff, hk]
    · rw [if_neg ho]
      simp [List.mem_cons, Prod.ext_iff, hk]

/-- Cross-category independence: as far as one category `k` is concerned,
running a call sequence is the same as running only the calls addressed to
`k`, starting from any two states that agree on category `k` (same
fragment list, same registered identities of that category). -/
theorem sections_filter (k : String) :
    ∀ (ops : List AddOp) (st st' : ScriptBuilder.State),
      st.sections k = st'.sections k →
      (∀ x, (k, x) ∈ st.registered ↔ (k, x) ∈ st'.registered) →
      (runAdds st ops).sections k
        = (runAdds st' (ops.filter (fun o => o.kind == k))).sections k := by
  intro ops
  induction ops with
  | nil =>
      intro st st' hs _hr
      simpa [runAdds_nil] using hs
  | cons o ops ih =>
      intro st st' hs hr
      rw [runAdds_cons, List.filter_cons]
      by_cases hk : o.kind = k
      · subst hk
        have hbeq : (o.kind == o.kind) = true := by
          simp
        simp only [hbeq, ite_true]
        rw [runAdds_cons]
        by_cases hmem : (o.kind, pyOr o.name o.snippet) ∈ st.registered
        · have hmem' : (o.kind, pyOr o.name o.snippet) ∈ st'.registered :=
            (hr _).mp hmem
          rw [add_of_mem _ _ _ _ hmem, add_of_mem _ _ _ _ hmem']
          exact ih st st' hs hr
        · have hmem' : (o.kind, pyOr o.name o.snippet) ∉ st'.registered :=
            fun hx => hmem ((hr _).mpr hx)
          by_cases ho : o.kind ∈ ScriptBuilder.ORDER
          · rw [add_of_new_valid _ _ _ _ hmem ho, add_of_new_valid _ _ _ _ hmem' ho]
            apply ih
            · simp [hs]
            · intro x
              simp [List.mem_cons, hr x]
          · rw [add_of_new_invalid _ _ _ _ hmem ho, add_of_new_invalid _ _ _ _ hmem' ho]
            apply ih
            · exact hs
            · intro x
              simp [List.mem_cons, hr x]
      · have hbeq : (o.kind == k) = false := by
          simp [hk]
        simp only [hbeq, if_neg, Bool.false_eq_true, not_false_iff, ite_false]
        apply ih
        · rw [add_sections_other _ _ _ _ _ (fun h => hk h.symm)]
          exact hs
        · intro x
          rw [add_registered_other _ _ _ _ _ _ (fun h => hk h.symm)]
          exact hr x

/-- The call sequence of the document-assembly scenario:
add("sensor", "S1"), add("weapon", "W1"), add("sensor", "S2"). -/
def opsC4 : List AddOp :=
  [⟨ "sensor", "S1", none⟩, ⟨ "weapon", "W1", none⟩, ⟨ "sensor", "S2", none⟩]

/-- C2: for every sequence of add calls (on valid categories), render
returns the fragments grouped strictly by the category enumeration order,
each category holding exactly what running only its own calls would
produce (independence from interleaving across categories); a category
with no calls contributes nothing, and an accepted add appends its
fragment at the end of its category (insertion order). -/
theorem C2_render_category_order (ops : List AddOp)
    (h : ∀ o ∈ ops, o.kind ∈ ScriptBuilder.ORDER) :
    (ScriptBuilder.render (runAdds ScriptBuilder.init ops)
      = String.intercalate "\n"
          (List.flatten (ScriptBuilder.ORDER.map (fun k =>
            (runAdds ScriptBuilder.init (ops.filter (fun o => o.kind == k))).sections k))))
    ∧ (∀ k, ops.filter (fun o => o.kind == k) = [] →
        (runAdds ScriptBuilder.init ops).sections k = [])
    ∧ (∀ o : AddOp, o.kind ∈ ScriptBuilder.ORDER →
        (o.kind, pyOr o.name o.snippet) ∉ (runAdds ScriptBuilder.init ops).registered →
        (runAdds ScriptBuilder.init (ops ++ [o])).sections o.kind
          = (runAdds ScriptBuilder.init ops).sections o.kind
              ++ [pyRstrip o.snippet ++ "\n"]) := by
  refine ⟨?_, ?_, ?_⟩
  · unfold ScriptBuilder.render
    have hfun : (runAdds ScriptBuilder.init ops).sections
        = fun k =>
            (runAdds ScriptBuilder.init (ops.filter (fun o => o.kind == k))).sections k := by
      funext k
      exact sections_filter k ops ScriptBuilder.init ScriptBuilder.init rfl
        (fun _ => Iff.rfl)
    rw [hfun]
  · intro k hf
    rw [sections_filter k ops ScriptBuilder.init ScriptBuilder.init rfl
      (fun _ => Iff.rfl), hf]
    rfl
  · intro o ho hreg
    rw [runAdds_append]
    rw [show runAdds (runAdds ScriptBuilder.init ops) [o]
          = (ScriptBuilder.add (runAdds ScriptBuilder.init ops)
              o.kind o.snippet o.name).2 from rfl]
    rw [add_of_new_valid _ _ _ _ hreg ho]
    simp

/-- Witness for C2 at the concrete scenario sequence, plus the empty
"physical" category and one further accepted "weapon" add. -/
theorem C2_render_category_order_witness :
    (ScriptBuilder.render (runAdds ScriptBuilder.init opsC4)
      = String.intercalate "\n"
          (List.flatten (ScriptBuilder.ORDER.map (fun k =>
            (runAdds ScriptBuilder.init (opsC4.filter (fun o => o.kind == k))).sections k))))
    ∧ (runAdds ScriptBuilder.init opsC4).sections "physical" = []
    ∧ (runAdds ScriptBuilder.init (opsC4 ++ [⟨ "weapon", "W2", none⟩])).sections "weapon"
        = (runAdds ScriptBuilder.init opsC4).sections "weapon"
            ++ [pyRstrip "W2" ++ "\n"] := by
  have h := C2_render_category_order opsC4 (by decide)
  exact ⟨h.1, h.2.1 "physical" rfl,
    h.2.2 ⟨ "weapon", "W2", none⟩ (by decide) (by decide)⟩

/-- C3 counterexample: with the empty-string key, Python `name or snippet`
falls back to the content, so the second add with different content is
accepted rather than a no-op, and the store differs from a single add. -/
theorem C3_counterexample :
    (ScriptBuilder.add (ScriptBuilder.add ScriptBuilder.init "sensor" "a"
        (some "")).2 "sensor" "b" (some "")).2.sections "sensor" = [ "a\n", "b\n"]
    ∧ (ScriptBuilder.add ScriptBuilder.init "sensor" "a" (some "")).2.sections "sensor"
        = [ "a\n"]
    ∧ ([ "a\n", "b\n"] : List String) ≠ [ "a\n"] := by
  refine ⟨by decide, by decide, by decide⟩

/-- C3 (amended): for any nonempty key K, adding under K and then adding
different content under the same K leaves the state (hence the render)
exactly that of the single first add; the second call is a no-op and does
not raise. -/
theorem C3_first_write_wins (st : ScriptBuilder.State) (cat K c1 c2 : String)
    (hK : K ≠ "") :
    ScriptBuilder.add (ScriptBuilder.add st cat c1 (some K)).2 cat c2 (some K)
      = (true, (ScriptBuilder.add st cat c1 (some K)).2)
    ∧ ScriptBuilder.render
        (ScriptBuilder.add (ScriptBuilder.add st cat c1 (some K)).2 cat c2 (some K)).2
      = ScriptBuilder.render (ScriptBuilder.add st cat c1 (some K)).2 := by
  have hp1 : pyOr (some K) c1 = K := by simp [pyOr, hK]
  have hp2 : pyOr (some K) c2 = K := by simp [pyOr, hK]
  have hmem : (cat, pyOr (some K) c2) ∈
      (ScriptBuilder.add st cat c1 (some K)).2.registered := by
    rw [hp2]
    have h1 := add_key_registered st cat c1 (some K)
    rwa [hp1] at h1
  have heq := add_of_mem _ _ _ _ hmem
  exact ⟨heq, by rw [heq]⟩

/-- Witness for C3 (amended) at concrete inputs. -/
theorem C3_first_write_wins_witness :
    ScriptBuilder.add (ScriptBuilder.add ScriptBuilder.init "sensor" "a"
        (some "K")).2 "sensor" "b" (some "K")
      = (true, (ScriptBuilder.add ScriptBuilder.init "sensor" "a" (some "K")).2)
    ∧ ScriptBuilder.render
        (ScriptBuilder.add (ScriptBuilder.add ScriptBuilder.init "sensor" "a"
          (some "K")).2 "sensor" "b" (some "K")).2
      = ScriptBuilder.render
          (ScriptBuilder.add ScriptBuilder.init "sensor" "a" (some "K")).2 :=
  C3_first_write_wins ScriptBuilder.init "sensor" "K" "a" "b" (by decide)

/-- C4 counterexample: the scenario sequence does not render to
"S1\nS2\n\nW1\n" — same-category fragments are also separated by a blank
line, because every stored fragment ends in a newline and the join adds
another between consecutive fragments. -/
theorem C4_counterexample :
    ScriptBuilder.render (runAdds ScriptBuilder.init opsC4) ≠ "S1\nS2\n\nW1\n" := by
  decide

/-- C4 (amended): the scenario sequence renders exactly to
"S1\n\nS2\n\nW1\n" — sensor content precedes weapon content regardless of
insertion order, and a blank line separates every pair of consecutive
fragments, including two fragments of the same category. -/
theorem C4_render_value :
    ScriptBuilder.render (runAdds ScriptBuilder.init opsC4) = "S1\n\nS2\n\nW1\n" := by
  decide

/-- C5 counterexample: an add on a category outside the enumeration does
fail, but only after the dedup identity set has been extended — the
registered set is not unchanged. -/
theorem C5_counterexample :
    (ScriptBuilder.add ScriptBuilder.init "bogus" "X" none).1 = false
    ∧ (ScriptBuilder.add ScriptBuilder.init "bogus" "X" none).2.registered
        = [ ( "bogus", "X")]
    ∧ ScriptBuilder.init.registered = []
    ∧ (ScriptBuilder.add ScriptBuilder.init "bogus" "X" none).2.registered
        ≠ ScriptBuilder.init.registered := by
  refine ⟨by decide, by decide, rfl, by decide⟩

/-- C5 (amended): for a category outside the enumeration, when the
identity is not yet registered the call raises KeyError with the sections
unchanged but the identity already added to the dedup set (the
registration happens before the failing dict lookup); when the identity
is already registered the call returns silently as a no-op without any
error. -/
theorem C5_unknown_category (st : ScriptBuilder.State) (cat c : String)
    (name : Option String) (hcat : cat ∉ ScriptBuilder.ORDER) :
    ((cat, pyOr name c) ∉ st.registered →
      ScriptBuilder.add st cat c name
        = (false, { st with registered := (cat, pyOr name c) :: st.registered }))
    ∧ ((cat, pyOr name c) ∈ st.registered →
      ScriptBuilder.add st cat c name = (true, st)) :=
  ⟨fun h => add_of_new_invalid st cat c name h hcat,
   fun h => add_of_mem st cat c name h⟩

/-- Witness for C5 (amended): both branches at concrete inputs. -/
theorem C5_unknown_category_witness :
    ScriptBuilder.add ScriptBuilder.init "bogus" "X" none
      = (false, { ScriptBuilder.init with registered := [ ( "bogus", "X")] })
    ∧ ScriptBuilder.add
        { ScriptBuilder.init with registered := [ ( "bogus", "X")] } "bogus" "X" none
      = (true, { ScriptBuilder.init with registered := [ ( "bogus", "X")] }) :=
  ⟨(C5_unknown_category ScriptBuilder.init "bogus" "X" none (by decide)).1 (by decide),
   (C5_unknown_category
      { ScriptBuilder.init with registered := [ ( "bogus", "X")] }
      "bogus" "X" none (by decide)).2 (by decide)⟩

/-- C8: finalize_script with save requested always raises — the code calls
Path(...) on the Ellipsis placeholder (there is no path parameter), a
TypeError before anything is written. -/
theorem C8_finalize_save_raises (st : ScriptBuilder.State) (r : Bool) :
    finalize_script st true r = Except.error () := rfl

/-- C9: reset clears all fragments and dedup identities: the reset state
renders empty, behaves on any subsequent call sequence exactly like a
fresh store, and any add of a valid category after reset is accepted
(re-adding a previously deduplicated identity succeeds) and stores
exactly the new fragment. -/
theorem C9_reset_clears (st : ScriptBuilder.State) :
    ScriptBuilder.render (ScriptBuilder.reset st) = ""
    ∧ (∀ ops, runAdds (ScriptBuilder.reset st) ops = runAdds ScriptBuilder.init ops)
    ∧ ∀ cat c name, cat ∈ ScriptBuilder.ORDER →
        (ScriptBuilder.add (ScriptBuilder.reset st) cat c name).1 = true
        ∧ (ScriptBuilder.add (ScriptBuilder.reset st) cat c name).2.sections cat
            = [pyRstrip c ++ "\n"] := by
  refine ⟨rfl, fun _ => rfl, fun cat c name hcat => ?_⟩
  have h : (cat, pyOr name c) ∉ (ScriptBuilder.reset st).registered := by
    simp [ScriptBuilder.reset]
  rw [add_of_new_valid _ _ _ _ h hcat]
  exact ⟨rfl, by simp [ScriptBuilder.reset]⟩

/-- Witness for C9 on a store that already holds the identity
("sensor", "X"): after reset it renders empty and accepts that same
identity again. -/
theorem C9_reset_clears_witness :
    ScriptBuilder.render
      (ScriptBuilder.reset (ScriptBuilder.add ScriptBuilder.init "sensor" "X" none).2) = ""
    ∧ (ScriptBuilder.add
        (ScriptBuilder.reset (ScriptBuilder.add ScriptBuilder.init "sensor" "X" none).2)
        "sensor" "X" none).1 = true
    ∧ (ScriptBuilder.add
        (ScriptBuilder.reset (ScriptBuilder.add ScriptBuilder.init "sensor" "X" none).2)
        "sensor" "X" none).2.sections "sensor" = [pyRstrip "X" ++ "\n"] := by
  have h := C9_reset_clears (ScriptBuilder.add ScriptBuilder.init "sensor" "X" none).2
  exact ⟨h.1, (h.2.2 "sensor" "X" none (by decide)).1,
    (h.2.2 "sensor" "X" none (by decide)).2⟩

/-- C10: for keyless adds the dedup identity is the raw content while the
stored fragment is the rstripped content plus a newline, so two keyless
adds in the same category whose contents differ only in trailing
whitespace are both accepted, the category then holds two byte-identical
fragments, and both raw contents are registered as identities. -/
theorem C10_raw_identity_stripped_fragment (st : ScriptBuilder.State)
    (cat c1 c2 : String) (hcat : cat ∈ ScriptBuilder.ORDER) (hne : c1 ≠ c2)
    (hstrip : pyRstrip c1 = pyRstrip c2)
    (h1 : (cat, c1) ∉ st.registered) (h2 : (cat, c2) ∉ st.registered) :
    (ScriptBuilder.add st cat c1 none).1 = true
    ∧ (ScriptBuilder.add (ScriptBuilder.add st cat c1 none).2 cat c2 none).1 = true
    ∧ (ScriptBuilder.add (ScriptBuilder.add st cat c1 none).2 cat c2 none).2.sections cat
        = st.sections cat ++ [pyRstrip c1 ++ "\n", pyRstrip c1 ++ "\n"]
    ∧ (ScriptBuilder.add (ScriptBuilder.add st cat c1 none).2 cat c2 none).2.registered
        = (cat, c2) :: (cat, c1) :: st.registered := by
  have heq1 := add_of_new_valid st cat c1 none h1 hcat
  have hmem2 : (cat, pyOr none c2) ∉
      (ScriptBuilder.add st cat c1 none).2.registered := by
    rw [heq1]
    simp only [List.mem_cons, not_or]
    refine ⟨fun hx => hne ?_, h2⟩
    exact (congrArg Prod.snd hx).symm
  have heq2 := add_of_new_valid _ cat c2 none hmem2 hcat
  refine ⟨by rw [heq1], by rw [heq2], ?_, ?_⟩
  · rw [heq2, heq1]
    show (if cat = cat
        then (if cat = cat then st.sections cat ++ [pyRstrip c1 ++ "\n"]
              else st.sections cat) ++ [pyRstrip c2 ++ "\n"]
        else (if cat = cat then st.sections cat ++ [pyRstrip c1 ++ "\n"]
              else st.sections cat))
      = st.sections cat ++ [pyRstrip c1 ++ "\n", pyRstrip c1 ++ "\n"]
    rw [if_pos rfl, if_pos rfl, ← hstrip, List.append_assoc]
    rfl
  · rw [heq2, heq1]
    rfl

/-- Witness for C10: contents "A" and "A " differ only in trailing
whitespace; on a fresh store both adds are accepted and the sensor
category holds two identical fragments. -/
theorem C10_raw_identity_stripped_fragment_witness :
    (ScriptBuilder.add ScriptBuilder.init "sensor" "A" none).1 = true
    ∧ (ScriptBuilder.add (ScriptBuilder.add ScriptBuilder.init "sensor" "A" none).2
        "sensor" "A " none).1 = true
    ∧ (ScriptBuilder.add (ScriptBuilder.add ScriptBuilder.init "sensor" "A" none).2
        "sensor" "A " none).2.sections "sensor"
        = ScriptBuilder.init.sections "sensor"
            ++ [pyRstrip "A" ++ "\n", pyRstrip "A" ++ "\n"]
    ∧ (ScriptBuilder.add (ScriptBuilder.add ScriptBuilder.init "sensor" "A" none).2
        "sensor" "A " none).2.registered
        = ( "sensor", "A ") :: ( "sensor", "A") :: ScriptBuilder.init.registered :=
  C10_raw_identity_stripped_fragment ScriptBuilder.init "sensor" "A" "A "
    (by decide) (by decide) (by decide) (by decide) (by decide)

/-- C1 counterexample: on the no-tool path the single grown message is the
appended prompt message, whose content "hello" differs from the returned
reply "Hi there"; on the tool path the three grown messages are the
prompt message, the assistant message with the call, and the tool result,
so the third grown message's content "TOOLRESULT" differs from the
returned follow-up "FOLLOWUP" and the first grown message is not the
assistant-with-call. -/
theorem C1_counterexample :
    MCPClient.chat [] "hello" "user"
        ⟨ "stop", ⟨ "assistant", "Hi there", none, []⟩⟩
        (fun _ _ => ⟨false, ""⟩) "ignored"
      = Except.ok ([⟨ "user", "hello", none, []⟩], "Hi there", [])
    ∧ ( "Hi there" : String) ≠ "hello"
    ∧ MCPClient.chat [] "add a radar signature" "user"
        ⟨ "tool_calls",
          ⟨ "assistant", "", none, [⟨ "id1", "define_radar_signature", "arg"⟩]⟩⟩
        (fun _ _ => ⟨false, "TOOLRESULT"⟩) "FOLLOWUP"
      = Except.ok
          ([⟨ "user", "add a radar signature", none, []⟩,
            ⟨ "assistant", "", none, [⟨ "id1", "define_radar_signature", "arg"⟩]⟩,
            ⟨ "tool", "TOOLRESULT", some "id1", []⟩],
           "FOLLOWUP", [ ( "define_radar_signature", "arg")])
    ∧ ( "FOLLOWUP" : String) ≠ "TOOLRESULT"
    ∧ ( "user" : String) ≠ "assistant" := by
  exact ⟨rfl, by decide, rfl, by decide, by decide⟩

/-- C1 (amended): on the no-tool path the history grows by exactly one
message — the appended prompt message — and the returned text is the
model reply content, which is not appended; on the tool path the history
grows by exactly three contiguous messages in the order prompt message,
assistant-with-call, tool-result, and the returned text is the follow-up
content, which is not appended. -/
theorem C1_history_growth (msgs : List ChatMessage) (prompt role : String)
    (resp : ModelResponse) (callTool : String → String → CallToolResult)
    (fc : String) :
    (resp.finish_reason ≠ "tool_calls" →
      MCPClient.chat msgs prompt role resp callTool fc
        = Except.ok (msgs ++ [⟨role, prompt, none, []⟩], resp.message.content, []))
    ∧ ∀ tc rest, resp.finish_reason = "tool_calls" →
        resp.message.tool_calls = tc :: rest →
        MCPClient.chat msgs prompt role resp callTool fc
          = Except.ok
              (msgs ++ [⟨role, prompt, none, []⟩, resp.message,
                ⟨ "tool", (callTool tc.fname tc.arguments).text, some tc.id, []⟩],
               fc, [ (tc.fname, tc.arguments)]) := by
  constructor
  · intro h
    simp [MCPClient.chat, h]
  · intro tc rest h1 h2
    simp [MCPClient.chat, h1, h2]

/-- Witness for C1 (amended): both paths at concrete inputs. -/
theorem C1_history_growth_witness :
    MCPClient.chat [] "hello" "user"
        ⟨ "stop", ⟨ "assistant", "Hi there", none, []⟩⟩
        (fun _ _ => ⟨false, ""⟩) "ignored"
      = Except.ok ([⟨ "user", "hello", none, []⟩], "Hi there", [])
    ∧ MCPClient.chat [] "p" "user"
        ⟨ "tool_calls", ⟨ "assistant", "", none, [⟨ "id1", "f", "a"⟩]⟩⟩
        (fun _ _ => ⟨false, "R"⟩) "F"
      = Except.ok
          ([⟨ "user", "p", none, []⟩,
            ⟨ "assistant", "", none, [⟨ "id1", "f", "a"⟩]⟩,
            ⟨ "tool", "R", some "id1", []⟩],
           "F", [ ( "f", "a")]) :=
  ⟨(C1_history_growth [] "hello" "user"
      ⟨ "stop", ⟨ "assistant", "Hi there", none, []⟩⟩
      (fun _ _ => ⟨false, ""⟩) "ignored").1 (by decide),
   (C1_history_growth [] "p" "user"
      ⟨ "tool_calls", ⟨ "assistant", "", none, [⟨ "id1", "f", "a"⟩]⟩⟩
      (fun _ _ => ⟨false, "R"⟩) "F").2 ⟨ "id1", "f", "a"⟩ [] rfl rfl⟩

/-- C6: when the gateway reports a failure for the invoked call — a result
flagged as an error carrying the error text — chat appends that error
text to history as a tool message linked by the call id, then completes
the turn normally with the follow-up answer instead of aborting. -/
theorem C6_tool_error_in_history (msgs : List ChatMessage) (prompt role : String)
    (resp : ModelResponse) (callTool : String → String → CallToolResult)
    (fc : String) (tc : ToolCall) (rest : List ToolCall) (e : String)
    (h1 : resp.finish_reason = "tool_calls")
    (h2 : resp.message.tool_calls = tc :: rest)
    (herr : callTool tc.fname tc.arguments = ⟨true, e⟩) :
    MCPClient.chat msgs prompt role resp callTool fc
      = Except.ok
          (msgs ++ [⟨role, prompt, none, []⟩, resp.message,
            ⟨ "tool", e, some tc.id, []⟩],
           fc, [ (tc.fname, tc.arguments)]) := by
  simp [MCPClient.chat, h1, h2, herr]

/-- Witness for C6: a failing gateway call at concrete inputs. -/
theorem C6_tool_error_in_history_witness :
    MCPClient.chat [] "p" "user"
        ⟨ "tool_calls", ⟨ "assistant", "", none, [⟨ "id1", "f", "a"⟩]⟩⟩
        (fun _ _ => ⟨true, "boom"⟩) "sorry about that"
      = Except.ok
          ([⟨ "user", "p", none, []⟩,
            ⟨ "assistant", "", none, [⟨ "id1", "f", "a"⟩]⟩,
            ⟨ "tool", "boom", some "id1", []⟩],
           "sorry about that", [ ( "f", "a")]) :=
  C6_tool_error_in_history [] "p" "user"
    ⟨ "tool_calls", ⟨ "assistant", "", none, [⟨ "id1", "f", "a"⟩]⟩⟩
    (fun _ _ => ⟨true, "boom"⟩) "sorry about that"
    ⟨ "id1", "f", "a"⟩ [] "boom" rfl rfl rfl

/-- C7: when the model response requests several tool calls, chat executes
exactly the first through the gateway — the invocation trace is that
single call, whatever the remaining requests are — appends exactly the
three messages of the tool path, and completes normally rather than
treating the extra requests as an error. -/
theorem C7_first_call_only (msgs : List ChatMessage) (prompt role : String)
    (resp : ModelResponse) (callTool : String → String → CallToolResult)
    (fc : String) (tc : ToolCall) (rest : List ToolCall)
    (h1 : resp.finish_reason = "tool_calls")
    (h2 : resp.message.tool_calls = tc :: rest) :
    MCPClient.chat msgs prompt role resp callTool fc
      = Except.ok
          (msgs ++ [⟨role, prompt, none, []⟩, resp.message,
            ⟨ "tool", (callTool tc.fname tc.arguments).text, some tc.id, []⟩],
           fc, [ (tc.fname, tc.arguments)])
    ∧ (msgs ++ [⟨role, prompt, none, []⟩, resp.message,
        ⟨ "tool", (callTool tc.fname tc.arguments).text, some tc.id, []⟩]).length
      = msgs.length + 3 := by
  constructor
  · simp [MCPClient.chat, h1, h2]
  · simp

/-- Witness for C7: a response carrying three simultaneous tool requests;
only the first appears in the invocation trace. -/
theorem C7_first_call_only_witness :
    MCPClient.chat [] "p" "user"
        ⟨ "tool_calls",
          ⟨ "assistant", "", none,
            [⟨ "id1", "f", "a"⟩, ⟨ "id2", "g", "b"⟩, ⟨ "id3", "h", "c"⟩]⟩⟩
        (fun _ _ => ⟨false, "R"⟩) "F"
      = Except.ok
          ([⟨ "user", "p", none, []⟩,
            ⟨ "assistant", "", none,
              [⟨ "id1", "f", "a"⟩, ⟨ "id2", "g", "b"⟩, ⟨ "id3", "h", "c"⟩]⟩,
            ⟨ "tool", "R", some "id1", []⟩],
           "F", [ ( "f", "a")])
    ∧ ([⟨ "user", "p", none, []⟩,
        ⟨ "assistant", "", none,
          [⟨ "id1", "f", "a"⟩, ⟨ "id2", "g", "b"⟩, ⟨ "id3", "h", "c"⟩]⟩,
        ⟨ "tool", "R", some "id1", []⟩] : List ChatMessage).length
      = ([] : List ChatMessage).length + 3 :=
  C7_first_call_only [] "p" "user"
    ⟨ "tool_calls",
      ⟨ "assistant", "", none,
        [⟨ "id1", "f", "a"⟩, ⟨ "id2", "g", "b"⟩, ⟨ "id3", "h", "c"⟩]⟩⟩
    (fun _ _ => ⟨false, "R"⟩) "F" ⟨ "id1", "f", "a"⟩
    [⟨ "id2", "g", "b"⟩, ⟨ "id3", "h", "c"⟩] rfl rfl
